import Mathlib

/-!
Verification development for the rule-based post scoring and recommendation
engine of `src/lib/algorithm-engine.js` (repository `cq_post_creator`).

The engine is a deterministic, synchronous text classifier: it applies a fixed
table of heuristic rules (regular-expression or custom predicates) to an input
string, accumulates per-signal scores, and derives warnings, recommendations
and rewritten variants.  This file is a shallow embedding of that engine:

* JavaScript strings are modelled as Lean `String` / `List Char`; lengths are
  counted in characters (code points).
* The regular expressions of the rule table are embedded as executable
  matchers: `/x/` containment tests, `/\b(a|b|...)\b/i` word-boundary
  alternation tests (JavaScript `\b` is a transition between `[A-Za-z0-9_]`
  and non-word characters; `/i` folds ASCII case), `^(...)` anchored
  case-insensitive alternation, a Unicode code-point range test, and the
  custom spam-indicator functions.
* `String.prototype.split(regex)` on a character class is modelled by
  `splitRuns`, which splits on maximal runs of separator characters and keeps
  the leading/trailing empty fields exactly as JavaScript does.
* Arithmetic on scores is exact: `Int` accumulation, and the final weighted
  average is computed in `ℚ` with `Math.round x` modelled as `⌊x + 1/2⌋`.
* The one fallible code path (`generateOptimizedVariants` reads `sentences[0]`
  which can be `undefined`, making `.trim()` throw) is modelled with `Option`.
-/

namespace CQPost

/-! ### Character classes and JavaScript string helpers -/

/-- JavaScript `\w` word characters: `[A-Za-z0-9_]`. -/
def isWordChar (c : Char) : Bool :=
  c.isUpper || c.isLower || c.isDigit || c == '_'

/-- Word-character test on an optional character; the start and the end of the
string behave like a non-word character for `\b`. -/
def wOpt : Option Char → Bool
  | none => false
  | some c => isWordChar c

/-- Whitespace characters recognised by the JavaScript `\s` class (ASCII
subset; the engine is only ever exercised on such whitespace). -/
def isJsWhitespace (c : Char) : Bool :=
  c == ' ' || c == '\t' || c == '\n' || c == '\r' || c == '\x0b' || c == '\x0c'

/-- Sentence-terminating punctuation of the variant generator: `[.!?]`. -/
def isSentenceEnd (c : Char) : Bool :=
  c == '.' || c == '!' || c == '?'

/-- Try to strip pattern `p` (already lower-cased) from the front of the text,
comparing case-insensitively; returns the remaining text on success. -/
def ciStrip : List Char → List Char → Option (List Char)
  | rest, [] => some rest
  | [], _ :: _ => none
  | c :: t, d :: p => if c.toLower = d then ciStrip t p else none

/-- Match one alternative `p` of a `/\b(...)\b/i` pattern at the current
position.  `prev` is the character just before the position (`none` at the
start of the string).  Word-boundary status is computed from the pattern
characters, which have the same word-character status as the matched text
characters (case folding preserves the class `[A-Za-z0-9_]`). -/
def matchHere (prev : Option Char) (t p : List Char) : Bool :=
  match ciStrip t p with
  | none => false
  | some rest => (wOpt prev != wOpt p.head?) && (wOpt p.getLast? != wOpt rest.head?)

/-- Match one alternative at the current position or at any later position. -/
def matchFrom : Option Char → List Char → List Char → Bool
  | prev, [], p => matchHere prev [] p
  | prev, c :: rest, p => matchHere prev (c :: rest) p || matchFrom (some c) rest p

/-- `RegExp.test` for `/\b(a₁|a₂|...)\b/i`: some alternative matches with word
boundaries on both sides. -/
def testWBL (alts : List (List Char)) (t : List Char) : Bool :=
  alts.any (fun p => matchFrom none t p)

/-- Anchored `/^(a₁|a₂|...)/i`: some alternative is a case-insensitive prefix
of the text (no trailing word boundary). -/
def startsWithCIAny (alts : List (List Char)) (t : List Char) : Bool :=
  alts.any (fun p => (ciStrip t p).isSome)

/-- The text ends with a case-insensitive occurrence of the pattern: used to
characterise the only way appending text can destroy a word-bounded match
(the match must reach the end of the string, where the trailing `\b` held
because of the end of input). -/
def ciSuffix (p t : List Char) : Prop :=
  ∃ u v, t = u ++ v ∧ v.map Char.toLower = p

/-- Count the matches of `/#\w+/g`: a `#` immediately followed by a word
character starts a token.  Word characters are never `#`, so counting the
positions where `#` is followed by a word character equals the number of
non-overlapping greedy matches. -/
def countHashtags : List Char → Nat
  | [] => 0
  | [_] => 0
  | c :: d :: rest =>
    (if c == '#' && isWordChar d then 1 else 0) + countHashtags (d :: rest)

/-- Number of ASCII upper-case letters, the match count of `/[A-Z]/g`. -/
def upperCount (t : List Char) : Nat :=
  (t.filter Char.isUpper).length

/-- Worker for `splitRuns`: `acc` is the current field (reversed), `inRun` is
true while consuming a maximal run of separator characters. -/
def splitRunsGo (p : Char → Bool) : List Char → List Char → Bool → List (List Char)
  | [], acc, inRun => if inRun then [[]] else [acc.reverse]
  | c :: rest, acc, inRun =>
    if inRun then
      (if p c then splitRunsGo p rest [] true else splitRunsGo p rest [c] false)
    else
      (if p c then acc.reverse :: splitRunsGo p rest [] true
       else splitRunsGo p rest (c :: acc) false)

/-- JavaScript `text.split(/[class]+/)`: split on maximal runs of separator
characters.  Like JavaScript, a leading (resp. trailing) separator run yields
a leading (resp. trailing) empty field, and `"".split` yields `[""]`. -/
def splitRuns (p : Char → Bool) (t : List Char) : List (List Char) :=
  splitRunsGo p t [] false

/-- JavaScript `String.prototype.trim` (whitespace from both ends). -/
def jsTrim (s : String) : String :=
  String.mk (((s.toList.dropWhile isJsWhitespace).reverse.dropWhile isJsWhitespace).reverse)

/-- JavaScript `Math.round` on the exact rational value: round half up. -/
def jsRound (x : ℚ) : Int := ⌊x + 1/2⌋

/-! ### The rule table (`PATTERNS` in the source) -/

/-- An embedded regular-expression pattern of the rule table. -/
inductive Pat where
  /-- `/c/` : the text contains the character. -/
  | containsChar (c : Char)
  /-- `/\b(a₁|a₂|...)\b/i` : word-bounded case-insensitive alternation. -/
  | wb (alts : List String)
  /-- `/[\u{1F300}-\u{1F9FF}]/u` : an emoji-range code point occurs. -/
  | emojiRange
  /-- `/\d+/` : the text contains an ASCII digit. -/
  | containsDigit
deriving DecidableEq

/-- `RegExp.prototype.test` for the embedded patterns. -/
def Pat.test : Pat → String → Bool
  | .containsChar c, t => t.toList.any (fun x => x == c)
  | .wb alts, t => testWBL (alts.map String.toList) t.toList
  | .emojiRange, t => t.toList.any (fun x => 0x1F300 ≤ x.toNat && x.toNat ≤ 0x1F9FF)
  | .containsDigit, t => t.toList.any Char.isDigit

/-- A booster rule: pattern, positive weight, justification. -/
structure BRule where
  pat : Pat
  weight : Int
  reason : String
deriving DecidableEq

/-- A negative-trigger rule: pattern, negative weight, target signal,
justification. -/
structure NRule where
  pat : Pat
  weight : Int
  signal : String
  reason : String
deriving DecidableEq

/-- A muted-keyword risk rule: pattern, risk level, justification. -/
structure MRule where
  pat : Pat
  risk : String
  reason : String
deriving DecidableEq

/-- A spam indicator: custom predicate over the full text, weight,
justification. -/
structure SpamRule where
  check : String → Bool
  weight : Int
  reason : String

/-- First reply booster: `/\?/`, weight 12. -/
def replyPat1 : Pat := Pat.containsChar '?'

/-- Second reply booster pattern:
`/\b(what do you think|thoughts\?|agree\?|disagree\?)\b/i`, weight 8. -/
def replyPat2 : Pat := Pat.wb ["what do you think", "thoughts?", "agree?", "disagree?"]

/-- Third reply booster pattern: `/\b(hot take|unpopular opinion)\b/i`,
weight 6. -/
def replyPat3 : Pat := Pat.wb ["hot take", "unpopular opinion"]

/-- `PATTERNS.replyBoosters`. -/
def replyBoosters : List BRule :=
  [ ⟨replyPat1, 12, "Questions trigger reply behavior"⟩
  , ⟨replyPat2, 8, "Direct conversation invitations"⟩
  , ⟨replyPat3, 6, "Debate-starting language"⟩ ]

/-- `PATTERNS.clickBoosters`. -/
def clickBoosters : List BRule :=
  [ ⟨Pat.wb ["check out", "try", "join", "see", "discover", "explore", "grab", "get", "claim", "learn more"], 8, "Call-to-action verbs"⟩
  , ⟨Pat.wb ["link in bio", "link below"], 5, "Link reference"⟩ ]

/-- `PATTERNS.favoriteBoosters`. -/
def favoriteBoosters : List BRule :=
  [ ⟨Pat.wb ["excited", "huge", "incredible", "amazing", "finally", "love"], 7, "Emotional resonance"⟩
  , ⟨Pat.emojiRange, 4, "Emoji engagement"⟩ ]

/-- `PATTERNS.shareBoosters`. -/
def shareBoosters : List BRule :=
  [ ⟨Pat.wb ["thread", "breakdown", "guide", "tips", "how to"], 8, "Shareable educational content"⟩
  , ⟨Pat.wb ["announcement", "introducing", "launching", "releasing"], 6, "News-worthy content"⟩ ]

/-- `PATTERNS.followBoosters`. -/
def followBoosters : List BRule :=
  [ ⟨Pat.wb ["we", "our", "community", "fam", "frens"], 6, "Community language"⟩
  , ⟨Pat.wb ["gm"], 4, "GM culture participation"⟩
  , ⟨Pat.wb ["building", "shipping", "working on"], 5, "Builder credibility"⟩ ]

/-- `PATTERNS.negativeTriggers`. -/
def negativeTriggers : List NRule :=
  [ ⟨Pat.wb ["buy now", "limited time", "act now", "dont miss"], -15, "P(not_interested)", "Hard sell language"⟩
  , ⟨Pat.wb ["100x", "guaranteed", "free money", "get rich"], -20, "P(report)", "Scam-associated language"⟩
  , ⟨Pat.wb ["like if", "rt if", "retweet to", "follow for", "drop a"], -12, "P(not_interested)", "Engagement bait"⟩ ]

/-- `PATTERNS.mutedRiskPatterns`. -/
def mutedRiskPatterns : List MRule :=
  [ ⟨Pat.wb ["airdrop", "whitelist", "presale"], "high", "Commonly muted crypto terms"⟩
  , ⟨Pat.wb ["mint price", "floor price", "paper hands", "diamond hands"], "medium", "NFT jargon"⟩ ]

/-- Spam check (a): more than 3 `#\w+` hashtag tokens. -/
def spamCheckHashtags (t : String) : Bool :=
  countHashtags t.toList > 3

/-- Spam check (b): upper-case letters over `max(length, 1)` exceed one half.
The source computes `count / Math.max(text.length, 1) > 0.5`; the comparison
is stated exactly over naturals (`2 * count > max length 1`). -/
def spamCheckCaps (t : String) : Bool :=
  2 * upperCount t.toList > max t.toList.length 1

/-- The `split(/\s+/)` word list of spam check (c) (unfiltered, exactly as the
source: leading/trailing separators contribute empty fields). -/
def spamWords (t : String) : List (List Char) :=
  splitRuns isJsWhitespace t.toList

/-- Largest frequency of a lower-cased word, `Math.max(...Object.values(freq))`. -/
def maxWordFreq (t : String) : Nat :=
  let ws := (spamWords t).map (List.map Char.toLower)
  ws.foldl (fun m w => max m (ws.count w)) 0

/-- Spam check (c): some lower-cased word occurs more than 3 times and the
split yields more than 10 words. -/
def spamCheckRepetition (t : String) : Bool :=
  maxWordFreq t > 3 && (spamWords t).length > 10

/-- `PATTERNS.spamIndicators`. -/
def spamIndicators : List SpamRule :=
  [ ⟨spamCheckHashtags, -8, "Excessive hashtags"⟩
  , ⟨spamCheckCaps, -10, "Excessive caps"⟩
  , ⟨spamCheckRepetition, -8, "Word repetition"⟩ ]

/-! ### Result structures -/

/-- One explainability entry pushed on `results.factors`. -/
structure Factor where
  signal : String
  impact : String
  reason : String
deriving DecidableEq

/-- One entry of `results.warnings`; `risk` is only set by muted-keyword
warnings. -/
structure Warning where
  type : String
  message : String
  risk : Option String := none
deriving DecidableEq

/-- One entry of `results.recommendations`. -/
structure Recommendation where
  priority : String
  action : String
  algorithmBenefit : String
  -- the source field is named `example`, a Lean keyword
  exampleText : String
deriving DecidableEq

/-- The five tracked engagement predictions. -/
structure Predictions where
  reply : Int
  favorite : Int
  click : Int
  repost : Int
  followAuthor : Int
deriving DecidableEq

/-- `results.scores` after all passes. -/
structure Scores where
  contentQuality : Int
  safety : Int
  format : Int
  overall : Int
deriving DecidableEq

/-- The options record accepted by `analyzePost`; absent fields are `none`. -/
structure Options where
  mediaType : Option String := none
  goal : Option String := none
  hasLink : Bool := false
deriving DecidableEq

/-- Empty options object `{}`. -/
def emptyOptions : Options := {}

/-- The full analysis result returned by `analyzePost`. -/
structure AnalysisResult where
  text : String
  charCount : Nat
  wordCount : Nat
  scores : Scores
  predictions : Predictions
  factors : List Factor
  recommendations : List Recommendation
  warnings : List Warning
deriving DecidableEq

/-! ### Scoring passes -/

/-- Total weight added by the rules of one category that match the text. -/
def boostSum (t : String) (rules : List BRule) : Int :=
  ((rules.filter (fun r => r.pat.test t)).map (fun r => r.weight)).sum

/-- Factor entries appended by the rules of one category that match. -/
def boostFactors (t : String) (signal : String) (rules : List BRule) : List Factor :=
  (rules.filter (fun r => r.pat.test t)).map
    (fun r => ⟨signal, "+" ++ toString r.weight, r.reason⟩)

/-- `analyzePredictions`: each signal starts from its baseline, every matching
booster adds its weight and appends a factor, and each final score is clamped
to at most 100. -/
def analyzePredictions (t : String) : Predictions × List Factor :=
  ( ⟨ min 100 (30 + boostSum t replyBoosters)
    , min 100 (40 + boostSum t favoriteBoosters)
    , min 100 (25 + boostSum t clickBoosters)
    , min 100 (20 + boostSum t shareBoosters)
    , min 100 (25 + boostSum t followBoosters) ⟩
  , boostFactors t "P(reply)" replyBoosters
      ++ boostFactors t "P(favorite)" favoriteBoosters
      ++ boostFactors t "P(click)" clickBoosters
      ++ boostFactors t "P(repost)" shareBoosters
      ++ boostFactors t "P(follow_author)" followBoosters )

/-- `/\b(new|update|launch|feature|announcing|introducing)\b/i`. -/
def infoPat : Pat := Pat.wb ["new", "update", "launch", "feature", "announcing", "introducing"]

/-- Alternatives of the anchored hook pattern
`/^(NEW|BREAKING|HUGE|FINALLY|JUST|INTRODUCING)/i` (lower-cased). -/
def hookAlts : List String := ["new", "breaking", "huge", "finally", "just", "introducing"]

/-- `analyzeContentQuality`: base 60, +10 informational vocabulary, +8 digits,
+8 strong hook in the first 120 characters; clamped to [0, 100]. -/
def analyzeContentQuality (t : String) : Int × List Factor :=
  let q1 : Int × List Factor :=
    if infoPat.test t then (10, [⟨"Content value", "+10", "Informational content"⟩]) else (0, [])
  let q2 : Int × List Factor :=
    if t.toList.any Char.isDigit then (8, [⟨"Specificity", "+8", "Contains specific numbers/data"⟩]) else (0, [])
  let q3 : Int × List Factor :=
    if startsWithCIAny (hookAlts.map String.toList) (t.toList.take 120)
    then (8, [⟨"Hook strength", "+8", "Strong opening word"⟩]) else (0, [])
  (max 0 (min 100 (60 + q1.1 + q2.1 + q3.1)), q1.2 ++ q2.2 ++ q3.2)

/-- Negative-trigger weight actually applied to the safety score. -/
def triggerSum (t : String) : Int :=
  ((negativeTriggers.filter (fun r => r.pat.test t)).map (fun r => r.weight)).sum

/-- Spam-indicator weight actually applied to the safety score. -/
def spamSum (t : String) : Int :=
  ((spamIndicators.filter (fun r => r.check t)).map (fun r => r.weight)).sum

/-- `analyzeNegativeSignals`: safety starts at 100; matching negative triggers
and firing spam indicators add their (negative) weights and append one factor
and one warning each; muted-risk patterns append a warning only; the result is
clamped to a minimum of 0. -/
def analyzeNegativeSignals (t : String) : Int × List Factor × List Warning :=
  let trig := negativeTriggers.filter (fun r => r.pat.test t)
  let spam := spamIndicators.filter (fun r => r.check t)
  let muted := mutedRiskPatterns.filter (fun r => r.pat.test t)
  ( max 0 (100 + triggerSum t + spamSum t)
  , trig.map (fun r => (⟨r.signal, toString r.weight, r.reason⟩ : Factor))
      ++ spam.map (fun r => (⟨"Spam risk", toString r.weight, r.reason⟩ : Factor))
  , trig.map (fun r => (⟨r.signal, r.reason, none⟩ : Warning))
      ++ spam.map (fun r => (⟨"spam", r.reason, none⟩ : Warning))
      ++ muted.map (fun r => (⟨"MutedKeywordFilter risk", r.reason, some r.risk⟩ : Warning)) )

/-- `analyzeFormat`: base 50; +10 for length in [100, 200], −5 and a warning
for length below 50; media bonus by `mediaType` (default `"none"`); clamped to
at most 100. -/
def analyzeFormat (t : String) (o : Options) : Int × List Factor × List Warning :=
  let mediaType := o.mediaType.getD "none"
  let len := t.length
  let lenPart : Int × List Factor × List Warning :=
    if 100 ≤ len ∧ len ≤ 200 then
      (10, [⟨"Length", "+10", "Optimal length (100-200 chars)"⟩], [])
    else if len < 50 then
      (-5, [], [⟨"length", "Very short - may lack context", none⟩])
    else (0, [], [])
  let mediaPart : Int × List Factor :=
    if mediaType = "video" then (20, [⟨"P(video_view)", "+20", "Video content"⟩])
    else if mediaType = "image" then (15, [⟨"P(photo_expand)", "+15", "Image content"⟩])
    else if mediaType = "thread" then (10, [⟨"P(dwell)", "+10", "Thread format"⟩])
    else (0, [])
  (min 100 (50 + lenPart.1 + mediaPart.1), lenPart.2.1 ++ mediaPart.2, lenPart.2.2)

/-- `calculateOverallScore`: round the weighted combination
`avg * 0.5 + contentQuality * 0.2 + format * 0.15 + safety * 0.15` of the mean
prediction and the three sub-scores.  A JavaScript `x || 50` (resp. `|| 100`)
default is modelled by the zero test, the only falsy `Int` value. -/
def calculateOverallScore (p : Predictions) (contentQuality format safety : Int) : Int :=
  let avgPrediction : ℚ :=
    ((p.reply + p.favorite + p.click + p.repost + p.followAuthor : Int) : ℚ) / 5
  jsRound (avgPrediction * (1/2)
    + (if contentQuality = 0 then (50 : ℚ) else (contentQuality : ℚ)) * (1/5)
    + (if format = 0 then (50 : ℚ) else (format : ℚ)) * (3/20)
    + (if safety = 0 then (100 : ℚ) else (safety : ℚ)) * (3/20))

/-! ### Recommendations -/

/-- Recommendation emitted for a low reply score without a question. -/
def recAddQuestion : Recommendation :=
  ⟨"high", "Add a question",
   "Increases P(reply) prediction from Phoenix ranking model",
   "End with \"Thoughts?\" or \"What would you add?\""⟩

/-- Recommendation emitted for a low click score. -/
def recSoftCTA : Recommendation :=
  ⟨"medium", "Add a soft call-to-action",
   "Boosts P(click) and P(profile_click) in weighted scoring",
   "Try \"Check out...\", \"See more...\", or \"Explore...\""⟩

/-- Recommendation emitted for a low repost score. -/
def recShareableValue : Recommendation :=
  ⟨"medium", "Add shareable value",
   "Increases P(repost) and P(share) predictions",
   "Include a tip, insight, or announcement worth sharing"⟩

/-- Recommendation emitted for long non-thread posts. -/
def recThreadFormat : Recommendation :=
  ⟨"low", "Consider thread format",
   "Long-form content performs better as threads, increasing P(dwell)",
   "Break into 2-4 connected tweets"⟩

/-- Recommendation emitted for a low follow score. -/
def recCommunityLanguage : Recommendation :=
  ⟨"low", "Add community language",
   "Increases P(follow_author) prediction",
   "Use \"we\", \"our community\", or inclusive language"⟩

/-- `generateRecommendations`, in emission order. -/
def generateRecommendations (p : Predictions) (text : String) (options : Options) : List Recommendation :=
  (if p.reply < 50 ∧ text.toList.any (fun c => c == '?') = false then [recAddQuestion] else [])
    ++ (if p.click < 40 then [recSoftCTA] else [])
    ++ (if p.repost < 40 then [recShareableValue] else [])
    ++ (if text.length > 250 ∧ options.mediaType ≠ some "thread" then [recThreadFormat] else [])
    ++ (if p.followAuthor < 40 then [recCommunityLanguage] else [])

/-! ### The entry point -/

/-- `analyzePost(text, options)`: run the five passes over the text and
assemble the shared result structure. -/
def analyzePost (text : String) (options : Options) : AnalysisResult :=
  let pred := analyzePredictions text
  let qual := analyzeContentQuality text
  let neg := analyzeNegativeSignals text
  let fmt := analyzeFormat text options
  { text := text
  , charCount := text.length
  , wordCount := ((splitRuns isJsWhitespace text.toList).filter (fun w => w ≠ [])).length
  , scores := ⟨qual.1, neg.1, fmt.1, calculateOverallScore pred.1 qual.1 fmt.1 neg.1⟩
  , predictions := pred.1
  , factors := pred.2 ++ qual.2 ++ neg.2.1 ++ fmt.2.1
  , recommendations := generateRecommendations pred.1 text options
  , warnings := neg.2.2 ++ fmt.2.2 }

/-! ### Variant generation -/

/-- A generated alternative phrasing of the input text. -/
structure Variant where
  type : String
  content : String
  changes : List String
  expectedImpact : String
deriving DecidableEq

/-- `getChanges(original, modified)`: never empty. -/
def getChanges (original modified : String) : List String :=
  let c1 : List String :=
    if modified.toList.any (fun c => c == '?') && !(original.toList.any (fun c => c == '?'))
    then ["Added question"] else []
  let c2 : List String :=
    if modified.length > original.length + 10 then ["Added engagement hook"] else []
  let cs := c1 ++ c2
  if cs.isEmpty then ["Structure optimized"] else cs

/-- `generateOptimizedVariants(text, analysis, options)`.  The source reads
`sentences[0]` inside the thread-opener branch without checking that the
sentence list is non-empty; when `text.length > 150` and every sentence is
empty after trimming, `sentences[0]` is `undefined` and `.trim()` throws a
`TypeError`.  That fallible access is modelled by returning `none`. -/
def generateOptimizedVariants (text : String) (analysis : AnalysisResult) (_options : Options) :
    Option (List Variant) :=
  let trimmed := jsTrim text
  let primary :=
    if analysis.predictions.reply < 50 ∧ text.toList.any (fun c => c == '?') = false
    then trimmed ++ "\n\nThoughts?" else trimmed
  let v1 : Variant :=
    ⟨"Primary Optimized", primary, getChanges text primary,
     "Balanced optimization for engagement"⟩
  let v2 : Variant :=
    ⟨"Conversation Starter", jsTrim text ++ "\n\nWhat would you add? 👇",
     ["Added direct reply invitation"], "Significantly increases P(reply)"⟩
  let sentences :=
    (splitRuns isSentenceEnd text.toList).filter (fun s0 => jsTrim (String.mk s0) ≠ "")
  let shortPart : List Variant :=
    match sentences with
    | s0 :: _ :: _ =>
      [⟨"Short & Punchy", jsTrim (String.mk s0) ++ ".\n\nMore soon 👀",
        ["Condensed to hook only", "Added curiosity tease"],
        "Higher completion rate, builds anticipation"⟩]
    | _ => []
  let base := [v1, v2] ++ shortPart
  if text.length > 150 then
    match sentences with
    | [] => none
    | s0 :: _ =>
      some (base ++
        [⟨"Thread Opener",
          "🧵 " ++ jsTrim (String.mk s0) ++ "\n\n(1/" ++ toString ((sentences.length + 1) / 2) ++ ")",
          ["Reformatted as thread", "Added thread markers"],
          "Increases P(click), P(dwell) for long-form"⟩])
  else some base

/-! ### Expansion and bound lemmas for the score accumulators -/

/-- `boostSum` over the reply boosters, written as a sum of guarded weights. -/
theorem boostSum_reply (t : String) :
    boostSum t replyBoosters =
      (if replyPat1.test t then 12 else 0) + (if replyPat2.test t then 8 else 0)
        + (if replyPat3.test t then 6 else 0) := by
  simp only [boostSum, replyBoosters, List.filter_cons, List.filter_nil]
  split_ifs <;> simp

/-- Bounds on the reply booster sum. -/
theorem boostSum_reply_bounds (t : String) :
    0 ≤ boostSum t replyBoosters ∧ boostSum t replyBoosters ≤ 26 := by
  rw [boostSum_reply]
  split_ifs <;> omega

/-- Bounds on the favorite booster sum. -/
theorem boostSum_favorite_bounds (t : String) :
    0 ≤ boostSum t favoriteBoosters ∧ boostSum t favoriteBoosters ≤ 11 := by
  simp only [boostSum, favoriteBoosters, List.filter_cons, List.filter_nil]
  split_ifs <;> simp

/-- Bounds on the click booster sum. -/
theorem boostSum_click_bounds (t : String) :
    0 ≤ boostSum t clickBoosters ∧ boostSum t clickBoosters ≤ 13 := by
  simp only [boostSum, clickBoosters, List.filter_cons, List.filter_nil]
  split_ifs <;> simp

/-- Bounds on the share booster sum. -/
theorem boostSum_share_bounds (t : String) :
    0 ≤ boostSum t shareBoosters ∧ boostSum t shareBoosters ≤ 14 := by
  simp only [boostSum, shareBoosters, List.filter_cons, List.filter_nil]
  split_ifs <;> simp

/-- Bounds on the follow booster sum. -/
theorem boostSum_follow_bounds (t : String) :
    0 ≤ boostSum t followBoosters ∧ boostSum t followBoosters ≤ 15 := by
  simp only [boostSum, followBoosters, List.filter_cons, List.filter_nil]
  split_ifs <;> simp

/-- The reply prediction of `analyzePost`, by definition. -/
theorem pred_reply_eq (t : String) (o : Options) :
    (analyzePost t o).predictions.reply = min 100 (30 + boostSum t replyBoosters) := rfl

/-- The favorite prediction of `analyzePost`, by definition. -/
theorem pred_favorite_eq (t : String) (o : Options) :
    (analyzePost t o).predictions.favorite = min 100 (40 + boostSum t favoriteBoosters) := rfl

/-- The click prediction of `analyzePost`, by definition. -/
theorem pred_click_eq (t : String) (o : Options) :
    (analyzePost t o).predictions.click = min 100 (25 + boostSum t clickBoosters) := rfl

/-- The repost prediction of `analyzePost`, by definition. -/
theorem pred_repost_eq (t : String) (o : Options) :
    (analyzePost t o).predictions.repost = min 100 (20 + boostSum t shareBoosters) := rfl

/-- The follow prediction of `analyzePost`, by definition. -/
theorem pred_follow_eq (t : String) (o : Options) :
    (analyzePost t o).predictions.followAuthor = min 100 (25 + boostSum t followBoosters) := rfl

/-- Each of the five prediction scores of `analyzePost` lies in [0, 100]. -/
theorem predictions_bounds (t : String) (o : Options) :
    (0 ≤ (analyzePost t o).predictions.reply ∧ (analyzePost t o).predictions.reply ≤ 100)
    ∧ (0 ≤ (analyzePost t o).predictions.favorite ∧ (analyzePost t o).predictions.favorite ≤ 100)
    ∧ (0 ≤ (analyzePost t o).predictions.click ∧ (analyzePost t o).predictions.click ≤ 100)
    ∧ (0 ≤ (analyzePost t o).predictions.repost ∧ (analyzePost t o).predictions.repost ≤ 100)
    ∧ (0 ≤ (analyzePost t o).predictions.followAuthor ∧ (analyzePost t o).predictions.followAuthor ≤ 100) := by
  have h1 := boostSum_reply_bounds t
  have h2 := boostSum_favorite_bounds t
  have h3 := boostSum_click_bounds t
  have h4 := boostSum_share_bounds t
  have h5 := boostSum_follow_bounds t
  rw [pred_reply_eq, pred_favorite_eq, pred_click_eq, pred_repost_eq, pred_follow_eq]
  omega

/-- The content-quality score of `analyzePost` lies in [60, 100]. -/
theorem contentQuality_bounds (t : String) (o : Options) :
    60 ≤ (analyzePost t o).scores.contentQuality
      ∧ (analyzePost t o).scores.contentQuality ≤ 100 := by
  show 60 ≤ (analyzeContentQuality t).1 ∧ (analyzeContentQuality t).1 ≤ 100
  simp only [analyzeContentQuality]
  split_ifs <;> simp

/-- The format score of `analyzePost` lies in [45, 100]. -/
theorem format_bounds (t : String) (o : Options) :
    45 ≤ (analyzePost t o).scores.format ∧ (analyzePost t o).scores.format ≤ 100 := by
  show 45 ≤ (analyzeFormat t o).1 ∧ (analyzeFormat t o).1 ≤ 100
  simp only [analyzeFormat]
  split_ifs <;> simp

/-- The negative-trigger sum lies in [−47, 0]. -/
theorem triggerSum_bounds (t : String) :
    -47 ≤ triggerSum t ∧ triggerSum t ≤ 0 := by
  simp only [triggerSum, negativeTriggers, List.filter_cons, List.filter_nil]
  split_ifs <;> simp

/-- The spam-indicator sum lies in [−26, 0]. -/
theorem spamSum_bounds (t : String) :
    -26 ≤ spamSum t ∧ spamSum t ≤ 0 := by
  simp only [spamSum, spamIndicators, List.filter_cons, List.filter_nil]
  split_ifs <;> simp

/-- The safety score never reaches the 0-clamp: it is exactly
`100 + triggerSum + spamSum`. -/
theorem safety_eq (t : String) (o : Options) :
    (analyzePost t o).scores.safety = 100 + triggerSum t + spamSum t := by
  have h1 := triggerSum_bounds t
  have h2 := spamSum_bounds t
  show max 0 (100 + triggerSum t + spamSum t) = _
  omega

/-- The safety score of `analyzePost` lies in [27, 100]. -/
theorem safety_bounds (t : String) (o : Options) :
    27 ≤ (analyzePost t o).scores.safety ∧ (analyzePost t o).scores.safety ≤ 100 := by
  have h1 := triggerSum_bounds t
  have h2 := spamSum_bounds t
  rw [safety_eq t o]
  omega

/-- Rounding bound, lower side. -/
theorem jsRound_nonneg (x : ℚ) (h : 0 ≤ x) : 0 ≤ jsRound x := by
  unfold jsRound
  exact Int.le_floor.mpr (by push_cast; linarith)

/-- Rounding bound, upper side. -/
theorem jsRound_le_hundred (x : ℚ) (h : x ≤ 100) : jsRound x ≤ 100 := by
  unfold jsRound
  have : ⌊x + 1/2⌋ < 101 := Int.floor_lt.mpr (by push_cast; linarith)
  omega

/-! ### Claim theorems: aggregation, predictions, recommendations, safety -/

/-- C1: for every text and options, `analyzePost` sets `scores.overall` to
`round(avgPrediction * 0.5 + contentQuality * 0.2 + format * 0.15 +
safety * 0.15)` where `avgPrediction` is the arithmetic mean of the five
prediction values (the defensive `|| 50` / `|| 100` defaults never fire
because the three sub-scores are always set and non-zero), and consequently
`scores.overall` is always an integer in [0, 100]. -/
theorem claim_C1_overall_formula (t : String) (o : Options) :
    (analyzePost t o).scores.overall
      = jsRound
          ((((analyzePost t o).predictions.reply + (analyzePost t o).predictions.favorite
              + (analyzePost t o).predictions.click + (analyzePost t o).predictions.repost
              + (analyzePost t o).predictions.followAuthor : Int) : ℚ) / 5 * (1/2)
            + ((analyzePost t o).scores.contentQuality : ℚ) * (1/5)
            + ((analyzePost t o).scores.format : ℚ) * (3/20)
            + ((analyzePost t o).scores.safety : ℚ) * (3/20))
      ∧ 0 ≤ (analyzePost t o).scores.overall ∧ (analyzePost t o).scores.overall ≤ 100 := by
  have hcq := contentQuality_bounds t o
  have hfmt := format_bounds t o
  have hsaf := safety_bounds t o
  have hpred := predictions_bounds t o
  have hover : (analyzePost t o).scores.overall
      = calculateOverallScore (analyzePost t o).predictions
          (analyzePost t o).scores.contentQuality (analyzePost t o).scores.format
          (analyzePost t o).scores.safety := rfl
  set P := (analyzePost t o).predictions with hP
  set cq := (analyzePost t o).scores.contentQuality with hcqd
  set fm := (analyzePost t o).scores.format with hfmd
  set sf := (analyzePost t o).scores.safety with hsfd
  have hcq0 : ¬(cq = 0) := by omega
  have hfm0 : ¬(fm = 0) := by omega
  have hsf0 : ¬(sf = 0) := by omega
  have heq : (analyzePost t o).scores.overall
      = jsRound (((P.reply + P.favorite + P.click + P.repost + P.followAuthor : Int) : ℚ) / 5 * (1/2)
          + (cq : ℚ) * (1/5) + (fm : ℚ) * (3/20) + (sf : ℚ) * (3/20)) := by
    rw [hover]
    simp only [calculateOverallScore, if_neg hcq0, if_neg hfm0, if_neg hsf0]
  refine ⟨heq, ?_, ?_⟩
  · rw [heq]
    apply jsRound_nonneg
    have h1 : (0 : ℚ) ≤ ((P.reply + P.favorite + P.click + P.repost + P.followAuthor : Int) : ℚ) := by
      have h0 : (0 : Int) ≤ P.reply + P.favorite + P.click + P.repost + P.followAuthor := by
        have := hpred.1.1
        have := hpred.2.1.1
        have := hpred.2.2.1.1
        have := hpred.2.2.2.1.1
        have := hpred.2.2.2.2.1
        omega
      exact_mod_cast h0
    have h2 : (0 : ℚ) ≤ (cq : ℚ) := by exact_mod_cast le_trans (by norm_num) hcq.1
    have h3 : (0 : ℚ) ≤ (fm : ℚ) := by exact_mod_cast le_trans (by norm_num) hfmt.1
    have h4 : (0 : ℚ) ≤ (sf : ℚ) := by exact_mod_cast le_trans (by norm_num) hsaf.1
    have h1' : (0 : ℚ) ≤ ((P.reply + P.favorite + P.click + P.repost + P.followAuthor : Int) : ℚ) / 5 := by
      positivity
    linarith
  · rw [heq]
    apply jsRound_le_hundred
    have hsum : ((P.reply + P.favorite + P.click + P.repost + P.followAuthor : Int) : ℚ) ≤ 500 := by
      have h0 : P.reply + P.favorite + P.click + P.repost + P.followAuthor ≤ (500 : Int) := by
        have := hpred.1.2
        have := hpred.2.1.2
        have := hpred.2.2.1.2
        have := hpred.2.2.2.1.2
        have := hpred.2.2.2.2.2
        omega
      exact_mod_cast h0
    have hc : (cq : ℚ) ≤ 100 := by exact_mod_cast hcq.2
    have hf : (fm : ℚ) ≤ 100 := by exact_mod_cast hfmt.2
    have hs : (sf : ℚ) ≤ 100 := by exact_mod_cast hsaf.2
    have hdiv : ((P.reply + P.favorite + P.click + P.repost + P.followAuthor : Int) : ℚ) / 5 ≤ 100 := by
      linarith
    linarith

/-- C2: each of the five prediction entries starts from its fixed baseline
(reply 30, favorite 40, click 25, repost 20, follow 25), adds the weight of
every matching booster rule of its category, is clamped to at most 100, and
lies in [0, 100]. -/
theorem claim_C2_prediction_values (t : String) (o : Options) :
    ((analyzePost t o).predictions.reply = min 100 (30 + boostSum t replyBoosters)
      ∧ (analyzePost t o).predictions.favorite = min 100 (40 + boostSum t favoriteBoosters)
      ∧ (analyzePost t o).predictions.click = min 100 (25 + boostSum t clickBoosters)
      ∧ (analyzePost t o).predictions.repost = min 100 (20 + boostSum t shareBoosters)
      ∧ (analyzePost t o).predictions.followAuthor = min 100 (25 + boostSum t followBoosters))
    ∧ ((0 ≤ (analyzePost t o).predictions.reply ∧ (analyzePost t o).predictions.reply ≤ 100)
      ∧ (0 ≤ (analyzePost t o).predictions.favorite ∧ (analyzePost t o).predictions.favorite ≤ 100)
      ∧ (0 ≤ (analyzePost t o).predictions.click ∧ (analyzePost t o).predictions.click ≤ 100)
      ∧ (0 ≤ (analyzePost t o).predictions.repost ∧ (analyzePost t o).predictions.repost ≤ 100)
      ∧ (0 ≤ (analyzePost t o).predictions.followAuthor ∧ (analyzePost t o).predictions.followAuthor ≤ 100)) :=
  ⟨⟨rfl, rfl, rfl, rfl, rfl⟩, predictions_bounds t o⟩

/-- C3: `analyzePost` emits exactly the five candidate recommendations, in
this order, each under exactly its documented condition. -/
theorem claim_C3_recommendations (t : String) (o : Options) :
    (analyzePost t o).recommendations =
      (if (analyzePost t o).predictions.reply < 50 ∧ t.toList.any (fun c => c == '?') = false
       then [recAddQuestion] else [])
      ++ (if (analyzePost t o).predictions.click < 40 then [recSoftCTA] else [])
      ++ (if (analyzePost t o).predictions.repost < 40 then [recShareableValue] else [])
      ++ (if t.length > 250 ∧ o.mediaType ≠ some "thread" then [recThreadFormat] else [])
      ++ (if (analyzePost t o).predictions.followAuthor < 40 then [recCommunityLanguage] else []) := rfl

/-- C10: for every text, the safety score lies in [27, 100]; the 0-clamp is
never reached, so the score is exactly 100 plus the fired negative-trigger and
spam weights, and in particular is never the falsy value 0 that would engage
the aggregation default. -/
theorem claim_C10_safety_range (t : String) (o : Options) :
    27 ≤ (analyzePost t o).scores.safety ∧ (analyzePost t o).scores.safety ≤ 100
      ∧ (analyzePost t o).scores.safety = 100 + triggerSum t + spamSum t
      ∧ (analyzePost t o).scores.safety ≠ 0 := by
  have h1 := safety_bounds t o
  have h2 := safety_eq t o
  exact ⟨h1.1, h1.2, h2, by omega⟩

/-! ### Claim theorems: concrete scenarios -/

set_option maxRecDepth 10000 in
/-- C7: `analyzePost` on the empty string returns zero character and word
counts, all five predictions at their baselines and a safety score of 100. -/
theorem claim_C7_empty_input :
    (analyzePost "" emptyOptions).charCount = 0
    ∧ (analyzePost "" emptyOptions).wordCount = 0
    ∧ (analyzePost "" emptyOptions).predictions = ⟨30, 40, 25, 20, 25⟩
    ∧ (analyzePost "" emptyOptions).scores.safety = 100 := by
  refine ⟨rfl, rfl, ?_, ?_⟩ <;> decide

set_option maxRecDepth 10000 in
/-- C5 counterexample: on `"100x guaranteed returns, buy now!"` the returned
warnings sequence does not contain exactly two warnings (the format pass adds
a third, very-short-length warning). -/
theorem claim_C5_two_warnings_cx :
    (analyzePost "100x guaranteed returns, buy now!" emptyOptions).warnings.length ≠ 2 := by
  decide

set_option maxRecDepth 10000 in
/-- C5 amended: on `"100x guaranteed returns, buy now!"` exactly the hard-sell
trigger (weight −15, signal `P(not_interested)`) and the scam-language trigger
(weight −20, signal `P(report)`) fire, `scores.safety = 65 ≤ 65`, and the
returned warnings sequence contains exactly three warnings: the two
negative-trigger warnings followed by the very-short-length warning. -/
theorem claim_C5_amended_scenario :
    negativeTriggers.filter (fun r => r.pat.test "100x guaranteed returns, buy now!")
      = [⟨Pat.wb ["buy now", "limited time", "act now", "dont miss"], -15,
          "P(not_interested)", "Hard sell language"⟩,
         ⟨Pat.wb ["100x", "guaranteed", "free money", "get rich"], -20,
          "P(report)", "Scam-associated language"⟩]
    ∧ (analyzePost "100x guaranteed returns, buy now!" emptyOptions).scores.safety = 65
    ∧ (analyzePost "100x guaranteed returns, buy now!" emptyOptions).scores.safety ≤ 65
    ∧ (analyzePost "100x guaranteed returns, buy now!" emptyOptions).warnings
      = [⟨"P(not_interested)", "Hard sell language", none⟩,
         ⟨"P(report)", "Scam-associated language", none⟩,
         ⟨"length", "Very short - may lack context", none⟩] := by
  refine ⟨?_, ?_, ?_, ?_⟩ <;> decide

set_option maxRecDepth 10000 in
/-- C4: the claim is right and the code is wrong.  On a punctuation-only text
longer than 150 characters the sentence list is empty, the thread-opener
branch reads `sentences[0]` (`undefined`) and `.trim()` throws, so
`generateOptimizedVariants` fails instead of returning the two guaranteed
variants; the embedding returns `none` on that input. -/
theorem claim_C4_crash_on_punctuation_only :
    generateOptimizedVariants (String.mk (List.replicate 151 '.'))
      (analyzePost (String.mk (List.replicate 151 '.')) emptyOptions) emptyOptions = none := by
  decide

/-! ### Claim theorems: unrecognized media types -/

/-- The format pass treats any unrecognized (or absent) `mediaType` exactly
like `"none"`. -/
theorem analyzeFormat_unrecognized (t : String) (mo : Option String)
    (g : Option String) (hl : Bool)
    (h : mo ≠ some "image" ∧ mo ≠ some "video" ∧ mo ≠ some "thread") :
    analyzeFormat t ⟨mo, g, hl⟩ = analyzeFormat t ⟨some "none", g, hl⟩ := by
  obtain ⟨h1, h2, h3⟩ := h
  cases mo with
  | none => rfl
  | some s =>
    have hv : ¬(s = "video") := fun hh => h2 (by rw [hh])
    have hi : ¬(s = "image") := fun hh => h1 (by rw [hh])
    have hth : ¬(s = "thread") := fun hh => h3 (by rw [hh])
    simp only [analyzeFormat, Option.getD_some]
    rw [if_neg hv, if_neg hi, if_neg hth,
        if_neg (show ¬("none" = "video") by decide),
        if_neg (show ¬("none" = "image") by decide),
        if_neg (show ¬("none" = "thread") by decide)]

/-- The recommendation pass treats any `mediaType` other than `"thread"`
exactly like `"none"`. -/
theorem generateRecommendations_unrecognized (p : Predictions) (t : String)
    (mo : Option String) (g : Option String) (hl : Bool)
    (h3 : mo ≠ some "thread") :
    generateRecommendations p t ⟨mo, g, hl⟩ = generateRecommendations p t ⟨some "none", g, hl⟩ := by
  simp only [generateRecommendations]
  have e1 : (if t.length > 250 ∧ mo ≠ some "thread" then [recThreadFormat]
             else ([] : List Recommendation))
      = (if t.length > 250 ∧ (some "none" : Option String) ≠ some "thread"
         then [recThreadFormat] else []) := by
    apply if_congr ?_ rfl rfl
    constructor
    · rintro ⟨hlen, _⟩
      exact ⟨hlen, by simp⟩
    · rintro ⟨hlen, _⟩
      exact ⟨hlen, h3⟩
  rw [e1]

/-- C8: for every text, `analyzePost` with an absent or unrecognized
`mediaType` returns a result identical to `analyzePost` with
`mediaType = "none"`: the format pass applies no media bonus and the
recommendation conditions behave the same. -/
theorem claim_C8_unrecognized_mediaType (t : String) (mo : Option String)
    (g : Option String) (hl : Bool)
    (h : mo ≠ some "image" ∧ mo ≠ some "video" ∧ mo ≠ some "thread") :
    analyzePost t ⟨mo, g, hl⟩ = analyzePost t ⟨some "none", g, hl⟩ := by
  have hf := analyzeFormat_unrecognized t mo g hl h
  have hr := generateRecommendations_unrecognized (analyzePredictions t).1 t mo g hl h.2.2
  simp only [analyzePost]
  rw [hf, hr]

/-- Witness for C8 at a concrete unrecognized media type. -/
theorem claim_C8_unrecognized_mediaType_witness :
    analyzePost "hi" ⟨some "gif", none, false⟩ = analyzePost "hi" ⟨some "none", none, false⟩ :=
  claim_C8_unrecognized_mediaType "hi" (some "gif") none false (by decide)

/-! ### Claim theorems: spam checks -/

/-- Generic fact about the running maximum used by the word-repetition check. -/
theorem foldl_max_lt_iff {α : Type} (g : α → Nat) (l : List α) (init k : Nat) :
    k < l.foldl (fun m w => max m (g w)) init ↔ k < init ∨ ∃ x ∈ l, k < g x := by
  induction l generalizing init with
  | nil => simp
  | cons a l ih =>
    rw [List.foldl_cons, ih, lt_max_iff]
    constructor
    · rintro ((h | h) | ⟨x, hx, hgx⟩)
      · exact Or.inl h
      · exact Or.inr ⟨a, by simp, h⟩
      · exact Or.inr ⟨x, by simp [hx], hgx⟩
    · rintro (h | ⟨x, hx, hgx⟩)
      · exact Or.inl (Or.inl h)
      · rcases List.mem_cons.mp hx with rfl | hx'
        · exact Or.inl (Or.inr hgx)
        · exact Or.inr ⟨x, hx', hgx⟩

/-- The hashtag check fires iff the text has more than 3 `#word` tokens. -/
theorem spamCheckHashtags_iff (t : String) :
    spamCheckHashtags t = true ↔ countHashtags t.toList > 3 := by
  simp [spamCheckHashtags]

/-- The caps check fires iff the ratio of upper-case letters to text length
exceeds one half (for the empty text both sides are false; the source guards
the division with `max(length, 1)`, and `0/0 = 0` in `ℚ`). -/
theorem spamCheckCaps_iff (t : String) :
    spamCheckCaps t = true
      ↔ (1/2 : ℚ) < (upperCount t.toList : ℚ) / (t.toList.length : ℚ) := by
  have hle : upperCount t.toList ≤ t.toList.length := List.length_filter_le _ _
  simp only [spamCheckCaps, decide_eq_true_eq]
  by_cases hl : t.toList.length = 0
  · have hu : upperCount t.toList = 0 := by omega
    rw [hl, hu]
    norm_num
  · have hpos : (0 : ℚ) < (t.toList.length : ℚ) := by
      exact_mod_cast Nat.pos_of_ne_zero hl
    rw [lt_div_iff₀ hpos]
    have hmax : max t.toList.length 1 = t.toList.length := by omega
    rw [hmax]
    constructor
    · intro h
      have hc : (t.toList.length : ℚ) < 2 * (upperCount t.toList : ℚ) := by exact_mod_cast h
      linarith
    · intro h
      have hc : (t.toList.length : ℚ) < 2 * (upperCount t.toList : ℚ) := by linarith
      exact_mod_cast hc

/-- The repetition check fires iff some lower-cased word occurs more than 3
times and the whitespace split yields more than 10 words. -/
theorem spamCheckRepetition_iff (t : String) :
    spamCheckRepetition t = true
      ↔ (∃ w ∈ (spamWords t).map (List.map Char.toLower),
            3 < ((spamWords t).map (List.map Char.toLower)).count w)
          ∧ 10 < (spamWords t).length := by
  simp only [spamCheckRepetition, Bool.and_eq_true, decide_eq_true_eq]
  rw [maxWordFreq]
  apply and_congr
  · rw [gt_iff_lt, foldl_max_lt_iff]
    simp
  · exact gt_iff_lt

/-- Booster factors never carry the `"Spam risk"` signal label. -/
theorem boostFactors_no_spam (t sig : String) (rules : List BRule)
    (h : (sig == "Spam risk") = false) :
    (boostFactors t sig rules).filter (fun f => f.signal == "Spam risk") = [] := by
  rw [List.filter_eq_nil_iff]
  intro f hf
  obtain ⟨r, _, rfl⟩ := List.mem_map.mp hf
  simp [h]

/-- Among all warnings produced by `analyzePost`, exactly the spam-indicator
warnings have type `"spam"`. -/
theorem spam_warning_filter (t : String) (o : Options) :
    ((analyzePost t o).warnings.filter (fun w => w.type == "spam")).length
      = (spamIndicators.filter (fun r => r.check t)).length := by
  have hw : (analyzePost t o).warnings
      = ((negativeTriggers.filter (fun r => r.pat.test t)).map
            (fun r => (⟨r.signal, r.reason, none⟩ : Warning))
          ++ (spamIndicators.filter (fun r => r.check t)).map
            (fun r => (⟨"spam", r.reason, none⟩ : Warning))
          ++ (mutedRiskPatterns.filter (fun r => r.pat.test t)).map
            (fun r => (⟨"MutedKeywordFilter risk", r.reason, some r.risk⟩ : Warning)))
        ++ (analyzeFormat t o).2.2 := rfl
  have htrig : ((negativeTriggers.filter (fun r => r.pat.test t)).map
      (fun r => (⟨r.signal, r.reason, none⟩ : Warning))).filter (fun w => w.type == "spam") = [] := by
    rw [List.filter_eq_nil_iff]
    intro w hwm
    obtain ⟨r, hr, rfl⟩ := List.mem_map.mp hwm
    have hr' : r ∈ negativeTriggers := List.mem_of_mem_filter hr
    have hall : ∀ x ∈ negativeTriggers, ¬((x.signal == "spam") = true) := by decide
    exact hall r hr'
  have hspam : ((spamIndicators.filter (fun r => r.check t)).map
      (fun r => (⟨"spam", r.reason, none⟩ : Warning))).filter (fun w => w.type == "spam")
      = (spamIndicators.filter (fun r => r.check t)).map
          (fun r => (⟨"spam", r.reason, none⟩ : Warning)) := by
    rw [List.filter_eq_self]
    intro w hwm
    obtain ⟨r, _, rfl⟩ := List.mem_map.mp hwm
    rfl
  have hmut : ((mutedRiskPatterns.filter (fun r => r.pat.test t)).map
      (fun r => (⟨"MutedKeywordFilter risk", r.reason, some r.risk⟩ : Warning))).filter
        (fun w => w.type == "spam") = [] := by
    rw [List.filter_eq_nil_iff]
    intro w hwm
    obtain ⟨r, _, rfl⟩ := List.mem_map.mp hwm
    show ¬(("MutedKeywordFilter risk" == "spam") = true)
    decide
  have hfmt : ((analyzeFormat t o).2.2).filter (fun w => w.type == "spam") = [] := by
    simp only [analyzeFormat]
    split_ifs <;> rfl
  rw [hw, List.filter_append, List.filter_append, List.filter_append,
      htrig, hspam, hmut, hfmt]
  simp

/-- Among all factors produced by `analyzePost`, exactly the spam-indicator
factors carry the `"Spam risk"` signal. -/
theorem spam_factor_filter (t : String) (o : Options) :
    ((analyzePost t o).factors.filter (fun f => f.signal == "Spam risk")).length
      = (spamIndicators.filter (fun r => r.check t)).length := by
  have hf : (analyzePost t o).factors
      = (analyzePredictions t).2 ++ (analyzeContentQuality t).2
          ++ (analyzeNegativeSignals t).2.1 ++ (analyzeFormat t o).2.1 := rfl
  have hpred : ((analyzePredictions t).2).filter (fun f => f.signal == "Spam risk") = [] := by
    have e : (analyzePredictions t).2
        = boostFactors t "P(reply)" replyBoosters
            ++ boostFactors t "P(favorite)" favoriteBoosters
            ++ boostFactors t "P(click)" clickBoosters
            ++ boostFactors t "P(repost)" shareBoosters
            ++ boostFactors t "P(follow_author)" followBoosters := rfl
    rw [e, List.filter_append, List.filter_append, List.filter_append, List.filter_append,
        boostFactors_no_spam t _ _ (by decide), boostFactors_no_spam t _ _ (by decide),
        boostFactors_no_spam t _ _ (by decide), boostFactors_no_spam t _ _ (by decide),
        boostFactors_no_spam t _ _ (by decide)]
    rfl
  have hqual : ((analyzeContentQuality t).2).filter (fun f => f.signal == "Spam risk") = [] := by
    simp only [analyzeContentQuality]
    split_ifs <;> rfl
  have hneg : ((analyzeNegativeSignals t).2.1).filter (fun f => f.signal == "Spam risk")
      = (spamIndicators.filter (fun r => r.check t)).map
          (fun r => (⟨"Spam risk", toString r.weight, r.reason⟩ : Factor)) := by
    have e : (analyzeNegativeSignals t).2.1
        = (negativeTriggers.filter (fun r => r.pat.test t)).map
            (fun r => (⟨r.signal, toString r.weight, r.reason⟩ : Factor))
          ++ (spamIndicators.filter (fun r => r.check t)).map
            (fun r => (⟨"Spam risk", toString r.weight, r.reason⟩ : Factor)) := rfl
    have htrigf : ((negativeTriggers.filter (fun r => r.pat.test t)).map
        (fun r => (⟨r.signal, toString r.weight, r.reason⟩ : Factor))).filter
          (fun f => f.signal == "Spam risk") = [] := by
      rw [List.filter_eq_nil_iff]
      intro f hfm
      obtain ⟨r, hr, rfl⟩ := List.mem_map.mp hfm
      have hr' : r ∈ negativeTriggers := List.mem_of_mem_filter hr
      have hall : ∀ x ∈ negativeTriggers, ¬((x.signal == "Spam risk") = true) := by decide
      exact hall r hr'
    have hsf : ((spamIndicators.filter (fun r => r.check t)).map
        (fun r => (⟨"Spam risk", toString r.weight, r.reason⟩ : Factor))).filter
          (fun f => f.signal == "Spam risk")
        = (spamIndicators.filter (fun r => r.check t)).map
            (fun r => (⟨"Spam risk", toString r.weight, r.reason⟩ : Factor)) := by
      rw [List.filter_eq_self]
      intro f hfm
      obtain ⟨r, _, rfl⟩ := List.mem_map.mp hfm
      rfl
    rw [e, List.filter_append, htrigf, hsf]
    rfl
  have hfmtf : ((analyzeFormat t o).2.1).filter (fun f => f.signal == "Spam risk") = [] := by
    simp only [analyzeFormat]
    split_ifs <;> rfl
  rw [hf, List.filter_append, List.filter_append, List.filter_append,
      hpred, hqual, hneg, hfmtf]
  simp

/-- Count of firing spam indicators as a sum of guarded ones. -/
theorem spam_filter_length (t : String) :
    (spamIndicators.filter (fun r => r.check t)).length
      = (if spamCheckHashtags t = true then 1 else 0)
        + (if spamCheckCaps t = true then 1 else 0)
        + (if spamCheckRepetition t = true then 1 else 0) := by
  simp only [spamIndicators, List.filter_cons, List.filter_nil]
  split_ifs <;> simp

/-- `spamSum` as a sum of guarded weights. -/
theorem spamSum_expand (t : String) :
    spamSum t
      = (if spamCheckHashtags t = true then (-8 : Int) else 0)
        + (if spamCheckCaps t = true then (-10 : Int) else 0)
        + (if spamCheckRepetition t = true then (-8 : Int) else 0) := by
  simp only [spamSum, spamIndicators, List.filter_cons, List.filter_nil]
  split_ifs <;> simp

/-- C6: the negative-signal pass applies exactly three spam checks — (a) more
than 3 `#word` hashtag tokens, (b) upper-case ratio above one half, (c) some
lower-cased word repeated more than 3 times in a text of more than 10 words —
and each firing check adds its weight to safety and appends exactly one
factor with signal `"Spam risk"` and one warning of type `"spam"`. -/
theorem claim_C6_spam_heuristics (t : String) (o : Options) :
    ((analyzePost t o).warnings.filter (fun w => w.type == "spam")).length
        = (if countHashtags t.toList > 3 then 1 else 0)
          + (if (1/2 : ℚ) < (upperCount t.toList : ℚ) / (t.toList.length : ℚ) then 1 else 0)
          + (if (∃ w ∈ (spamWords t).map (List.map Char.toLower),
                  3 < ((spamWords t).map (List.map Char.toLower)).count w)
                ∧ 10 < (spamWords t).length then 1 else 0)
    ∧ ((analyzePost t o).factors.filter (fun f => f.signal == "Spam risk")).length
        = (if countHashtags t.toList > 3 then 1 else 0)
          + (if (1/2 : ℚ) < (upperCount t.toList : ℚ) / (t.toList.length : ℚ) then 1 else 0)
          + (if (∃ w ∈ (spamWords t).map (List.map Char.toLower),
                  3 < ((spamWords t).map (List.map Char.toLower)).count w)
                ∧ 10 < (spamWords t).length then 1 else 0)
    ∧ (analyzePost t o).scores.safety
        = max 0 (100 + triggerSum t
            + ((if countHashtags t.toList > 3 then (-8 : Int) else 0)
              + (if (1/2 : ℚ) < (upperCount t.toList : ℚ) / (t.toList.length : ℚ)
                 then (-10 : Int) else 0)
              + (if (∃ w ∈ (spamWords t).map (List.map Char.toLower),
                      3 < ((spamWords t).map (List.map Char.toLower)).count w)
                    ∧ 10 < (spamWords t).length then (-8 : Int) else 0))) := by
  have iA1 : (if countHashtags t.toList > 3 then (1 : Nat) else 0)
      = (if spamCheckHashtags t = true then 1 else 0) :=
    if_congr (spamCheckHashtags_iff t).symm rfl rfl
  have iB1 : (if (1/2 : ℚ) < (upperCount t.toList : ℚ) / (t.toList.length : ℚ) then (1 : Nat) else 0)
      = (if spamCheckCaps t = true then 1 else 0) :=
    if_congr (spamCheckCaps_iff t).symm rfl rfl
  have iC1 : (if (∃ w ∈ (spamWords t).map (List.map Char.toLower),
          3 < ((spamWords t).map (List.map Char.toLower)).count w)
        ∧ 10 < (spamWords t).length then (1 : Nat) else 0)
      = (if spamCheckRepetition t = true then 1 else 0) :=
    if_congr (spamCheckRepetition_iff t).symm rfl rfl
  have iA2 : (if countHashtags t.toList > 3 then (-8 : Int) else 0)
      = (if spamCheckHashtags t = true then (-8 : Int) else 0) :=
    if_congr (spamCheckHashtags_iff t).symm rfl rfl
  have iB2 : (if (1/2 : ℚ) < (upperCount t.toList : ℚ) / (t.toList.length : ℚ)
        then (-10 : Int) else 0)
      = (if spamCheckCaps t = true then (-10 : Int) else 0) :=
    if_congr (spamCheckCaps_iff t).symm rfl rfl
  have iC2 : (if (∃ w ∈ (spamWords t).map (List.map Char.toLower),
          3 < ((spamWords t).map (List.map Char.toLower)).count w)
        ∧ 10 < (spamWords t).length then (-8 : Int) else 0)
      = (if spamCheckRepetition t = true then (-8 : Int) else 0) :=
    if_congr (spamCheckRepetition_iff t).symm rfl rfl
  refine ⟨?_, ?_, ?_⟩
  · rw [iA1, iB1, iC1, spam_warning_filter t o, spam_filter_length t]
  · rw [iA1, iB1, iC1, spam_factor_filter t o, spam_filter_length t]
  · rw [iA2, iB2, iC2]
    have hs : (analyzePost t o).scores.safety = max 0 (100 + triggerSum t + spamSum t) := rfl
    rw [hs, spamSum_expand t]

/-! ### Append stability of the word-boundary matcher -/

/-- Stripping a pattern commutes with appending text on the right. -/
theorem ciStrip_append (p : List Char) :
    ∀ (t r s : List Char), ciStrip t p = some r → ciStrip (t ++ s) p = some (r ++ s) := by
  induction p with
  | nil =>
    intro t r s h
    simp only [ciStrip, Option.some.injEq] at h
    subst h
    simp [ciStrip]
  | cons d p ih =>
    intro t r s h
    cases t with
    | nil => simp [ciStrip] at h
    | cons c t' =>
      simp only [ciStrip] at h ⊢
      by_cases hc : c.toLower = d
      · rw [if_pos hc] at h ⊢
        exact ih t' r s h
      · rw [if_neg hc] at h
        exact absurd h (by simp)

/-- A successful strip decomposes the text into a case-insensitive occurrence
of the pattern followed by the remainder. -/
theorem ciStrip_some (p : List Char) :
    ∀ (t r : List Char), ciStrip t p = some r → ∃ v, t = v ++ r ∧ v.map Char.toLower = p := by
  induction p with
  | nil =>
    intro t r h
    simp only [ciStrip, Option.some.injEq] at h
    subst h
    exact ⟨[], by simp, rfl⟩
  | cons d p ih =>
    intro t r h
    cases t with
    | nil => simp [ciStrip] at h
    | cons c t' =>
      simp only [ciStrip] at h
      by_cases hc : c.toLower = d
      · rw [if_pos hc] at h
        obtain ⟨v, hv1, hv2⟩ := ih t' r h
        exact ⟨c :: v, by simp [hv1], by simp [hv2, hc]⟩
      · rw [if_neg hc] at h
        exact absurd h (by simp)

/-- A word-boundary match at a fixed position survives appending text unless
the match consumed the text exactly to its end. -/
theorem matchHere_append (prev : Option Char) (t p s : List Char)
    (h : matchHere prev t p = true) :
    matchHere prev (t ++ s) p = true ∨ ciStrip t p = some [] := by
  unfold matchHere at h
  cases hc : ciStrip t p with
  | none =>
    rw [hc] at h
    exact absurd h (by simp)
  | some rest =>
    rw [hc] at h
    cases rest with
    | nil => exact Or.inr rfl
    | cons x r' =>
      left
      unfold matchHere
      rw [ciStrip_append p t (x :: r') s hc]
      simpa using h

/-- A match somewhere in the text implies a match in the text itself. -/
theorem matchHere_matchFrom (prev : Option Char) (t p : List Char)
    (h : matchHere prev t p = true) : matchFrom prev t p = true := by
  cases t with
  | nil => exact h
  | cons c rest =>
    show (matchHere prev (c :: rest) p || matchFrom (some c) rest p) = true
    rw [Bool.or_eq_true]
    exact Or.inl h

/-- Appending text can only destroy a word-boundary match when the text ends
with a case-insensitive occurrence of the pattern (whose trailing boundary
held because of the end of input). -/
theorem matchFrom_append (p s : List Char) :
    ∀ (prev : Option Char) (t : List Char), matchFrom prev t p = true →
      matchFrom prev (t ++ s) p = true ∨ ciSuffix p t := by
  intro prev t
  induction t generalizing prev with
  | nil =>
    intro h
    rcases matchHere_append prev [] p s h with h' | h'
    · exact Or.inl (matchHere_matchFrom prev ([] ++ s) p h')
    · obtain ⟨v, hv1, hv2⟩ := ciStrip_some p [] [] h'
      right
      refine ⟨[], v, ?_, hv2⟩
      simpa using hv1
  | cons c rest ih =>
    intro h
    rw [show matchFrom prev (c :: rest) p
        = (matchHere prev (c :: rest) p || matchFrom (some c) rest p) from rfl,
      Bool.or_eq_true] at h
    rcases h with h | h
    · rcases matchHere_append prev (c :: rest) p s h with h' | h'
      · left
        show (matchHere prev ((c :: rest) ++ s) p || matchFrom (some c) (rest ++ s) p) = true
        rw [Bool.or_eq_true]
        exact Or.inl h' 
      · right
        obtain ⟨v, hv1, hv2⟩ := ciStrip_some p (c :: rest) [] h'
        exact ⟨[], v, by simpa using hv1, hv2⟩
    · rcases ih (some c) h with h' | h'
      · left
        show (matchHere prev ((c :: rest) ++ s) p || matchFrom (some c) (rest ++ s) p) = true
        rw [Bool.or_eq_true]
        exact Or.inr h' 
      · right
        obtain ⟨u, v, hv1, hv2⟩ := h'
        exact ⟨c :: u, v, by simp [hv1], hv2⟩

/-- When a word-boundary alternation matched the text but no longer matches
after appending, the text ends with one of the alternatives. -/
theorem testWBL_break (alts : List (List Char)) (t s : List Char)
    (h1 : testWBL alts t = true) (h2 : testWBL alts (t ++ s) = false) :
    ∃ p ∈ alts, ciSuffix p t := by
  simp only [testWBL, List.any_eq_true] at h1
  obtain ⟨p, hp, hm⟩ := h1
  rcases matchFrom_append p s none t hm with h' | h'
  · exfalso
    have h2' : ∀ q ∈ alts, ¬(matchFrom none (t ++ s) q = true) := by
      simpa [testWBL, List.any_eq_false] using h2
    exact h2' p hp h'
  · exact ⟨p, hp, h'⟩

/-- Two case-insensitive suffixes of the same text determine each other: the
longer one ends with the shorter one. -/
theorem ciSuffix_drop (p q t : List Char) (hp : ciSuffix p t) (hq : ciSuffix q t)
    (hlen : p.length ≤ q.length) : q.drop (q.length - p.length) = p := by
  obtain ⟨u1, v1, ht1, hm1⟩ := hp
  obtain ⟨u2, v2, ht2, hm2⟩ := hq
  have hlv1 : v1.length = p.length := by rw [← hm1]; simp
  have hlv2 : v2.length = q.length := by rw [← hm2]; simp
  have hd1 : t.drop u1.length = v1 := by rw [ht1]; exact List.drop_left u1 v1
  have hd2 : t.drop u2.length = v2 := by rw [ht2]; exact List.drop_left u2 v2
  have hlt1 : t.length = u1.length + v1.length := by rw [ht1]; simp
  have hlt2 : t.length = u2.length + v2.length := by rw [ht2]; simp
  have hkey : v2.drop (v2.length - v1.length) = v1 := by
    have e1 : v2.drop (v2.length - v1.length)
        = (t.drop u2.length).drop (v2.length - v1.length) := by rw [hd2]
    rw [e1, List.drop_drop,
        show u2.length + (v2.length - v1.length) = u1.length from by omega]
    exact hd1
  calc q.drop (q.length - p.length)
      = (v2.map Char.toLower).drop (v2.length - v1.length) := by rw [hm2, hlv1, hlv2]
    _ = (v2.drop (v2.length - v1.length)).map Char.toLower := by simp [List.map_drop]
    _ = v1.map Char.toLower := by rw [hkey]
    _ = p := hm1

/-- Appending one string cannot break both the direct-invitation pattern and
the debate-language pattern simultaneously: each break forces the text to end
with one of the respective alternatives, and no pair of alternatives is
suffix-compatible. -/
theorem reply_not_both_break (t s : List Char)
    (h2a : testWBL (["what do you think", "thoughts?", "agree?", "disagree?"].map String.toList) t = true)
    (h2b : testWBL (["what do you think", "thoughts?", "agree?", "disagree?"].map String.toList) (t ++ s) = false)
    (h3a : testWBL (["hot take", "unpopular opinion"].map String.toList) t = true)
    (h3b : testWBL (["hot take", "unpopular opinion"].map String.toList) (t ++ s) = false) :
    False := by
  obtain ⟨p, hp, hps⟩ := testWBL_break _ t s h2a h2b
  obtain ⟨q, hq, hqs⟩ := testWBL_break _ t s h3a h3b
  simp only [List.map_cons, List.map_nil, List.mem_cons, List.not_mem_nil, or_false] at hp hq
  rcases hp with rfl | rfl | rfl | rfl <;> rcases hq with rfl | rfl <;>
    first
      | exact absurd (ciSuffix_drop _ _ t hqs hps (by decide)) (by decide)
      | exact absurd (ciSuffix_drop _ _ t hps hqs (by decide)) (by decide)

/-! ### Claim theorems: appending a question -/

set_option maxRecDepth 10000 in
/-- C9 counterexample: for `t = "hot take"` (reply 36 < 50, no question mark)
and appended `s = "s?"` (contains a question mark), the new reply score is 42,
not the old score plus the weight 12 of the only newly matching rule: the
junction destroys the word boundary of the debate-language match, which the
claim does not account for. -/
theorem claim_C9_delta_cx :
    ((analyzePost "hot take" emptyOptions).predictions.reply < 50)
    ∧ ("hot take".toList.any (fun c => c == '?') = false)
    ∧ ("s?".toList.any (fun c => c == '?') = true)
    ∧ (replyPat1.test ("hot take" ++ "s?") = true ∧ replyPat1.test "hot take" = false)
    ∧ (replyPat2.test ("hot take" ++ "s?") = false)
    ∧ (replyPat3.test ("hot take" ++ "s?") = false ∧ replyPat3.test "hot take" = true)
    ∧ (analyzePost "hot take" emptyOptions).predictions.reply = 36
    ∧ (analyzePost ("hot take" ++ "s?") emptyOptions).predictions.reply = 42
    ∧ (analyzePost ("hot take" ++ "s?") emptyOptions).predictions.reply
        ≠ (analyzePost "hot take" emptyOptions).predictions.reply + 12 := by
  refine ⟨?_, ?_, ?_, ⟨?_, ?_⟩, ?_, ⟨?_, ?_⟩, ?_, ?_, ?_⟩ <;> decide

/-- C9 amended: appending a sentence containing a question mark to a text with
reply score below 50 and no prior question mark strictly increases the reply
prediction; the new value is the old value plus the weights of the newly
matching reply boosters minus the weights of the boosters that cease to match
(the junction can unmatch at most one of them); it never decreases. -/
theorem claim_C9_append_question (t s : String)
    (hqt : t.toList.any (fun c => c == '?') = false)
    (hqs : s.toList.any (fun c => c == '?') = true)
    (_hlow : (analyzePost t emptyOptions).predictions.reply < 50) :
    (analyzePost t emptyOptions).predictions.reply
        < (analyzePost (t ++ s) emptyOptions).predictions.reply
    ∧ (analyzePost (t ++ s) emptyOptions).predictions.reply
        = (analyzePost t emptyOptions).predictions.reply
          + (if replyPat1.test (t ++ s) = true ∧ replyPat1.test t = false then 12 else 0)
          + (if replyPat2.test (t ++ s) = true ∧ replyPat2.test t = false then 8 else 0)
          + (if replyPat3.test (t ++ s) = true ∧ replyPat3.test t = false then 6 else 0)
          - (if replyPat1.test t = true ∧ replyPat1.test (t ++ s) = false then 12 else 0)
          - (if replyPat2.test t = true ∧ replyPat2.test (t ++ s) = false then 8 else 0)
          - (if replyPat3.test t = true ∧ replyPat3.test (t ++ s) = false then 6 else 0) := by
  have hd : (t ++ s).toList = t.toList ++ s.toList := by
    show (t ++ s).data = t.data ++ s.data
    exact String.data_append t s
  have e1 : replyPat1.test t = false := hqt
  have e1' : replyPat1.test (t ++ s) = true := by
    show (t ++ s).toList.any (fun c => c == '?') = true
    rw [hd, List.any_append, hqs]
    simp
  have hdich : ¬(replyPat2.test t = true ∧ replyPat2.test (t ++ s) = false
      ∧ replyPat3.test t = true ∧ replyPat3.test (t ++ s) = false) := by
    rintro ⟨h1, h2, h3, h4⟩
    refine reply_not_both_break t.toList s.toList h1 ?_ h3 ?_
    · rw [← hd]
      exact h2
    · rw [← hd]
      exact h4
  have hrt : (analyzePost t emptyOptions).predictions.reply
      = min 100 (30 + boostSum t replyBoosters) := rfl
  have hrts : (analyzePost (t ++ s) emptyOptions).predictions.reply
      = min 100 (30 + boostSum (t ++ s) replyBoosters) := rfl
  have hd4 : replyPat2.test t = false ∨ replyPat2.test (t ++ s) = true
      ∨ replyPat3.test t = false ∨ replyPat3.test (t ++ s) = true := by
    cases hA : replyPat2.test t with
    | false => exact Or.inl rfl
    | true =>
      cases hB : replyPat2.test (t ++ s) with
      | true => exact Or.inr (Or.inl rfl)
      | false =>
        cases hC : replyPat3.test t with
        | false => exact Or.inr (Or.inr (Or.inl rfl))
        | true =>
          cases hD : replyPat3.test (t ++ s) with
          | true => exact Or.inr (Or.inr (Or.inr rfl))
          | false => exact absurd ⟨hA, hB, hC, hD⟩ hdich
  rw [hrt, hrts, boostSum_reply, boostSum_reply]
  cases h2t : replyPat2.test t <;> cases h3t : replyPat3.test t <;>
    cases h2ts : replyPat2.test (t ++ s) <;> cases h3ts : replyPat3.test (t ++ s) <;>
    simp [e1, e1', h2t, h3t, h2ts, h3ts] at hd4 ⊢

/-- Witness for C9 at `t = "hello"`, `s = " what?"`: reply goes from 30 to 42,
with only the question rule (weight 12) newly matching. -/
theorem claim_C9_append_question_witness :
    (analyzePost "hello" emptyOptions).predictions.reply
        < (analyzePost ("hello" ++ " what?") emptyOptions).predictions.reply
    ∧ (analyzePost ("hello" ++ " what?") emptyOptions).predictions.reply
        = (analyzePost "hello" emptyOptions).predictions.reply
          + (if replyPat1.test ("hello" ++ " what?") = true ∧ replyPat1.test "hello" = false then 12 else 0)
          + (if replyPat2.test ("hello" ++ " what?") = true ∧ replyPat2.test "hello" = false then 8 else 0)
          + (if replyPat3.test ("hello" ++ " what?") = true ∧ replyPat3.test "hello" = false then 6 else 0)
          - (if replyPat1.test "hello" = true ∧ replyPat1.test ("hello" ++ " what?") = false then 12 else 0)
          - (if replyPat2.test "hello" = true ∧ replyPat2.test ("hello" ++ " what?") = false then 8 else 0)
          - (if replyPat3.test "hello" = true ∧ replyPat3.test ("hello" ++ " what?") = false then 6 else 0) :=
  claim_C9_append_question "hello" " what?" (by decide) (by decide) (by decide)

end CQPost
